import Mathlib

/-!
Verification of the KTP deployment orchestrator (src/deploy/deploy.py).

Shallow embedding conventions:
- Remote absolute paths are modelled as lists of path segments
  (the empty list is the filesystem root, so List.dropLast is
  os.path.dirname: dropLast of the root is the root, matching
  os.path.dirname of the slash path).
- The remote filesystem is a directory set plus a file association list
  (path to content).  sftp.stat on a directory is membership (the root
  always exists); file permission bits are not tracked, since no
  behaviour of the orchestrator reads them back.
- Environmental nondeterminism (reachability of a host, success of an
  upload, a remote command transport failure inside the backup helper,
  the HTTP status of the notification sink, the wall-clock timestamp) is
  a parameter record Env, so that each Python run corresponds to one
  choice of Env.
- Observable remote interaction is a trace of events; only the two
  events the specification reasons about are recorded: opening an SSH
  connection to a host, and an HTTP POST to the notification relay.
  Every sftp / exec-command effect is instead reflected in the modelled
  remote filesystem state.
- Functions keep the Python names without the leading underscore where
  Lean allows it (mkdir_p, backup_file_via_ssh, deploy_component, ...).
-/

/-- A remote absolute path, as its list of segments ([] is the root). -/
abbrev RPath := List String

/-- Modelled remote filesystem: existing directories and files with content. -/
structure RemoteFS where
  dirs : List RPath
  files : List (RPath × String)
deriving Repr, DecidableEq

/-- Observable remote interactions the claims reason about. -/
inductive Event where
  | connect (host : String)
  | post (url : String)
deriving Repr, DecidableEq

/-- One entry of config paths: source artifact, destination (relative
to a server directory, as segments), optional chmod octal string. -/
structure PathMapping where
  source : String
  dest : RPath
  chmod : Option String
deriving Repr, DecidableEq

/-- One cluster entry of the configuration document.  Fields that the
YAML may omit are Options; accessing a missing mandatory field in
Python raises KeyError, modelled where it matters.  The Python key
server_name_prefix is rendered serverNamePfx here. -/
structure Cluster where
  host : Option String
  user : String
  password : Option String
  ports : List Int
  hostname : Option String
  serverNamePfx : Option String
  test_cluster : Bool
  description : Option String
deriving Repr, DecidableEq

/-- The loaded configuration (config.yaml after overrides). -/
structure Config where
  clusters : List (String × Cluster)
  paths : List (String × List PathMapping)
  profiles : List (String × List (String × String))
  discordRelayUrl : Option String
  discordRelaySecret : Option String
  discordChannelId : Option String
deriving Repr, DecidableEq

/-- Environmental parameters of one run: the local artifact store, the
behaviour of the network, the timestamp, and the template directory. -/
structure Env where
  /-- relative source paths (under artifacts_dir) that exist locally -/
  localFiles : List String
  /-- content of a local artifact -/
  contentOf : String → String
  /-- whether ssh.connect to this host succeeds -/
  connectOK : String → Bool
  /-- whether sftp.put (and the following chmod) at this destination succeeds -/
  uploadOK : RPath → Bool
  /-- a transport failure raising inside _backup_file_via_ssh -/
  backupExecFails : Bool
  /-- datetime.now().strftime of the YYYYMMDD_HHMMSS pattern -/
  timestamp : String
  /-- the --version argument -/
  version : String
  /-- template names when the templates directory exists -/
  templates : Option (List String)
  /-- jinja2 rendering: template name, profile variables, cluster, server dir -/
  render : String → List (String × String) → Cluster → String → String
  /-- the notification relay answers HTTP 200 -/
  httpOK : Bool
  /-- urlopen to the relay raises -/
  httpRaises : Bool

/-- Python truthiness of an optional string. -/
def truthyS : Option String → Bool
  | none => false
  | some s => !s.isEmpty

/-- Association-list lookup, modelling dict.get. -/
def lookupStr (l : List (String × α)) (k : String) : Option α :=
  (l.find? (fun e => e.1 = k)).map (fun e => e.2)

/-- File lookup in the modelled remote filesystem. -/
def findFile (fs : RemoteFS) (p : RPath) : Option String :=
  (fs.files.find? (fun e => e.1 = p)).map (fun e => e.2)

/-- Writing a file (sftp.put or a remote-side cp or a remote write):
overwrite-or-create at the given path. -/
def putFile (fs : RemoteFS) (p : RPath) (content : String) : RemoteFS :=
  { fs with files := (p, content) :: fs.files.filter (fun e => ¬ e.1 = p) }

/-- sftp.stat succeeding on a directory: the root always exists. -/
def statDir (fs : RemoteFS) (p : RPath) : Prop :=
  p = [] ∨ p ∈ fs.dirs

instance (fs : RemoteFS) (p : RPath) : Decidable (statDir fs p) := by
  unfold statDir; infer_instance

/-- One sftp.mkdir call with its OSError swallowed: a no-op when the
directory already exists or when its parent is missing. -/
def sftpMkdir (fs : RemoteFS) (d : RPath) : RemoteFS :=
  if statDir fs d then fs
  else if statDir fs d.dropLast then { fs with dirs := d :: fs.dirs } else fs

/-- The upward walk of _mkdir_p: collect the path and its ancestors
until the first one that stats, leaf first. -/
def collectMissing (fs : RemoteFS) (p : RPath) : List RPath :=
  if h : statDir fs p then [] else p :: collectMissing fs p.dropLast
termination_by p.length
decreasing_by
  have hp : 0 < p.length := List.length_pos.mpr (fun he => h (Or.inl he))
  simp only [List.length_dropLast]
  omega

/-- KTPDeployer._mkdir_p: create the collected missing directories in
root-to-leaf order, each mkdir swallowing OSError. -/
def mkdir_p (fs : RemoteFS) (p : RPath) : RemoteFS :=
  (collectMissing fs p).reverse.foldl sftpMkdir fs

/-- Remote shell mkdir -p (used over exec_command): creates the whole
prefix chain of the path unconditionally. -/
def shellMkdirP (fs : RemoteFS) (d : RPath) : RemoteFS :=
  { fs with dirs := ((List.range (d.length + 1)).map (fun k => d.take k)) ++ fs.dirs }

/-- The body of KTPDeployer._backup_file_via_ssh up to its exception
handler: test -f, then mkdir -p of the backup directory, then a
remote-side cp to basename.timestamp.bak. -/
def backupAttempt (env : Env) (fs : RemoteFS) (remotePath backupDir : RPath) : RemoteFS :=
  match findFile fs remotePath with
  | none => fs
  | some content =>
    let fs := shellMkdirP fs backupDir
    let fname := (remotePath.getLast?).getD ""
    putFile fs (backupDir ++ [fname ++ "." ++ env.timestamp ++ ".bak"]) content

/-- KTPDeployer._backup_file_via_ssh: the attempt with every exception
swallowed; a transport failure leaves the remote state unchanged. -/
def backup_file_via_ssh (env : Env) (fs : RemoteFS) (remotePath backupDir : RPath) : RemoteFS :=
  if env.backupExecFails then fs else backupAttempt env fs remotePath backupDir

/-- KTPDeployer._get_server_dirs. -/
def get_server_dirs (c : Cluster) : List String :=
  c.ports.map (fun p => "dod-" ++ toString p)

/-- The per-file body of the deploy_component loops: skip a missing
source with a warning, ensure the destination directory, back up, then
upload (with optional chmod) flipping the success flag on failure. -/
def deployFile (env : Env) (user : String) (sd : String)
    (acc : Bool × RemoteFS) (pc : PathMapping) : Bool × RemoteFS :=
  if pc.source ∈ env.localFiles then
    let dest : RPath := ["home", user] ++ [sd] ++ pc.dest
    let backupDir : RPath := ["home", user, "backups", env.version]
    let fs1 := if statDir acc.2 dest.dropLast then acc.2 else mkdir_p acc.2 dest.dropLast
    let fs2 := backup_file_via_ssh env fs1 dest backupDir
    if env.uploadOK dest then (acc.1, putFile fs2 dest (env.contentOf pc.source))
    else (false, fs2)
  else acc

/-- KTPDeployer.deploy_component. -/
def deploy_component (env : Env) (cfg : Config) (clusterName : String) (c : Cluster)
    (component : String) (dryRun : Bool) (fs : RemoteFS) : Bool × RemoteFS × List Event :=
  if truthyS c.host = false then (false, fs, [])
  else
    let componentPaths := (lookupStr cfg.paths component).getD []
    if componentPaths.isEmpty then (false, fs, [])
    else if dryRun then (true, fs, [])
    else
      match c.host with
      | none => (false, fs, [])
      | some h =>
        if env.connectOK h then
          let r := (get_server_dirs c).foldl
            (fun acc sd => componentPaths.foldl (deployFile env c.user sd) acc) (true, fs)
          (r.1, r.2, [Event.connect h])
        else (false, fs, [Event.connect h])

/-- Python str.title as used on the hostname: capitalize each
space-separated word (sufficient for the identifiers involved). -/
def titlecase (s : String) : String :=
  String.intercalate " " ((s.splitOn " ").map (fun w => w.capitalize))

/-- The servername patch of configure_server_names on an existing
config file: sed-replace every line anchored at servername= when grep
finds one, else echo-append the line. -/
def patchServername (content serverName : String) : String :=
  let newLine := "servername=\"" ++ serverName ++ "\""
  let lines := content.splitOn "\n"
  if lines.any (fun l => l.startsWith "servername=") then
    String.intercalate "\n" (lines.map (fun l =>
      if l.startsWith "servername=" then newLine else l))
  else content ++ newLine ++ "\n"

/-- The synthesized config file of configure_server_names for a fresh
instance: port, clientport = port - 10, servername, cluster banner. -/
def newConfigContent (i : Nat) (port : Int) (serverName hostname : String) : String :=
  "# LinuxGSM Instance Configuration\n# Instance " ++ toString i ++ " - Port "
    ++ toString port ++ "\n\nport=\"" ++ toString port ++ "\"\nclientport=\""
    ++ toString (port - 10) ++ "\"\nservername=\"" ++ serverName
    ++ "\"\n\n# Cluster: " ++ hostname ++ "\n"

/-- The per-instance body of configure_server_names on the remote host:
mkdir -p of the lgsm config directory, then patch or synthesize the
instance config file. -/
def configureOne (user hostname pfx : String) (fs : RemoteFS) (ip : Nat × Int) : RemoteFS :=
  let i := ip.1
  let port := ip.2
  let serverName := pfx ++ " #" ++ toString i
  let execName := if i = 1 then "dodserver" else "dodserver" ++ toString i
  let configDir : RPath :=
    ["home", user, "dod-" ++ toString port, "lgsm", "config-lgsm", "dodserver"]
  let configFile := configDir ++ [execName ++ ".cfg"]
  let fs := shellMkdirP fs configDir
  match findFile fs configFile with
  | some content => putFile fs configFile (patchServername content serverName)
  | none => putFile fs configFile (newConfigContent i port serverName hostname)

/-- enumerate(cluster ports, 1). -/
def enumPorts (c : Cluster) : List (Nat × Int) :=
  c.ports.enum.map (fun e => (e.1 + 1, e.2))

/-- KTPDeployer.configure_server_names.  No host pre-check: _connect
reads the host key (KeyError when absent, caught by the handler before
any connection attempt) and otherwise attempts ssh.connect even to an
empty host string. -/
def configure_server_names (env : Env) (clusterName : String) (c : Cluster)
    (dryRun : Bool) (fs : RemoteFS) : Bool × RemoteFS × List Event :=
  let hostname := c.hostname.getD clusterName
  let pfx := c.serverNamePfx.getD ("KTP " ++ titlecase hostname)
  if dryRun then (true, fs, [])
  else
    match c.host with
    | none => (false, fs, [])
    | some h =>
      if env.connectOK h then
        ((true, (enumPorts c).foldl (configureOne c.user hostname pfx) fs, [Event.connect h]))
      else (false, fs, [Event.connect h])

/-- KTPDeployer.deploy_configs: absent templates directory is a
documented no-op; dry run previews only; otherwise render every .j2
template into the ktpamx configs directory of every server instance. -/
def deploy_configs (env : Env) (cfg : Config) (clusterName : String) (c : Cluster)
    (profile : String) (dryRun : Bool) (fs : RemoteFS) : Bool × RemoteFS × List Event :=
  match env.templates with
  | none => (true, fs, [])
  | some templateNames =>
    let profileConfig := (lookupStr cfg.profiles profile).getD []
    if dryRun then (true, fs, [])
    else
      match c.host with
      | none => (false, fs, [])
      | some h =>
        if env.connectOK h then
          let fs' := (get_server_dirs c).foldl (fun fs sd =>
            let configDir : RPath :=
              ["home", c.user, sd, "serverfiles", "dod", "addons", "ktpamx", "configs"]
            let fs := mkdir_p fs configDir
            templateNames.foldl (fun fs tn =>
              if tn.endsWith ".j2" then
                putFile fs (configDir ++ [tn.dropRight 3]) (env.render tn profileConfig c sd)
              else fs) fs) fs
          (true, fs', [Event.connect h])
        else (false, fs, [Event.connect h])

/-- KTPDeployer.send_discord_notification: skipped when the relay is
not fully configured; otherwise one HTTP POST whose non-200 status or
raised exception yields false.  The payload body is not modelled. -/
def send_discord_notification (env : Env) (cfg : Config) (success : Bool)
    (clusters components : List String) (errors : Option (List String)) : Bool × List Event :=
  match cfg.discordRelayUrl with
  | none => (false, [])
  | some url =>
    if url.isEmpty then (false, [])
    else if truthyS cfg.discordRelaySecret = false then (false, [])
    else if truthyS cfg.discordChannelId = false then (false, [])
    else ((!env.httpRaises) && env.httpOK, [Event.post url])

/-- Accumulator of KTPDeployer.deploy: the overall flag, the error
list, the remote state and the event trace of the run. -/
structure DAcc where
  success : Bool
  errors : List String
  fs : RemoteFS
  trace : List Event
deriving Repr, DecidableEq

/-- The per-component statement of the deploy loop: run
deploy_component, appending one error and clearing the flag on a false
outcome. -/
def deployComponentStep (env : Env) (cfg : Config) (clusterName : String) (c : Cluster)
    (dryRun : Bool) (acc : DAcc) (component : String) : DAcc :=
  let r := deploy_component env cfg clusterName c component dryRun acc.fs
  if r.1 then { acc with fs := r.2.1, trace := acc.trace ++ r.2.2 }
  else
    { acc with
      success := false
      errors := acc.errors ++ [clusterName ++ ": Failed to deploy " ++ component]
      fs := r.2.1
      trace := acc.trace ++ r.2.2 }

/-- The per-cluster body of the deploy loop. -/
def deployCluster (env : Env) (cfg : Config) (components : List String) (profile : String)
    (dryRun deployConfigsFlag configureNames : Bool) (acc : DAcc) (clusterName : String) : DAcc :=
  match lookupStr cfg.clusters clusterName with
  | none =>
    { acc with
      success := false
      errors := acc.errors ++ ["Unknown cluster: " ++ clusterName] }
  | some c =>
    let acc :=
      if configureNames then
        let r := configure_server_names env clusterName c dryRun acc.fs
        if r.1 then { acc with fs := r.2.1, trace := acc.trace ++ r.2.2 }
        else
          { acc with
            success := false
            errors := acc.errors ++ [clusterName ++ ": Failed to configure server names"]
            fs := r.2.1
            trace := acc.trace ++ r.2.2 }
      else acc
    let acc := components.foldl (deployComponentStep env cfg clusterName c dryRun) acc
    if deployConfigsFlag then
      let r := deploy_configs env cfg clusterName c profile dryRun acc.fs
      if r.1 then { acc with fs := r.2.1, trace := acc.trace ++ r.2.2 }
      else
        { acc with
          success := false
          errors := acc.errors ++ [clusterName ++ ": Failed to deploy configs"]
          fs := r.2.1
          trace := acc.trace ++ r.2.2 }
    else acc

/-- KTPDeployer.deploy: iterate the clusters, then notify the relay
unless the run is a dry run or notification was not requested; the
notification outcome is ignored. -/
def deploy (env : Env) (cfg : Config) (clusters components : List String) (profile : String)
    (dryRun deployConfigsFlag configureNames notifyDiscord : Bool) (fs : RemoteFS) : DAcc :=
  let acc := clusters.foldl
    (deployCluster env cfg components profile dryRun deployConfigsFlag configureNames)
    { success := true, errors := [], fs := fs, trace := [] }
  if notifyDiscord && !dryRun then
    let r := send_discord_notification env cfg acc.success clusters components
      (if acc.success then none else some acc.errors)
    { acc with trace := acc.trace ++ r.2 }
  else acc

/-- The credential fields of one cluster in the configuration document
(everything the environment-override loop of _load_config touches). -/
structure ClusterDoc where
  host : Option String
  user : Option String
  password : Option String
deriving Repr, DecidableEq

/-- The configuration document as loaded from YAML, restricted to the
fields _load_config reads or writes. -/
structure ConfigDoc where
  clusters : List (String × ClusterDoc)
  dataServerIp : Option String
  discordRelayUrl : Option String
  discordRelaySecret : Option String
  discordChannelId : Option String
deriving Repr, DecidableEq

/-- Python str.upper on the ASCII cluster names: uppercase each
character (structurally recursive so that it evaluates). -/
def strUpper (s : String) : String :=
  String.mk (s.data.map Char.toUpper)

/-- One override statement of _load_config: os.environ.get followed by
a truthiness test, so an unset or empty variable keeps the old value. -/
def envOverride (environ : String → Option String) (key : String)
    (old : Option String) : Option String :=
  match environ key with
  | some v => if v.isEmpty then old else some v
  | none => old

/-- The per-cluster loop body of _load_config. -/
def applyClusterOverrides (environ : String → Option String) (clusterName : String)
    (cc : ClusterDoc) : ClusterDoc :=
  let pfx := "KTP_" ++ strUpper clusterName ++ "_"
  { host := envOverride environ (pfx ++ "HOST") cc.host
    user := envOverride environ (pfx ++ "USER") cc.user
    password := envOverride environ (pfx ++ "PASSWORD") cc.password }

/-- KTPDeployer._load_config after yaml.safe_load: apply the cluster
credential overrides and the top-level overrides. -/
def load_config (environ : String → Option String) (doc : ConfigDoc) : ConfigDoc :=
  { clusters := doc.clusters.map (fun e => (e.1, applyClusterOverrides environ e.1 e.2))
    dataServerIp := envOverride environ "KTP_DATA_SERVER_IP" doc.dataServerIp
    discordRelayUrl := envOverride environ "KTP_DISCORD_RELAY_URL" doc.discordRelayUrl
    discordRelaySecret := envOverride environ "KTP_DISCORD_RELAY_SECRET" doc.discordRelaySecret
    discordChannelId := envOverride environ "KTP_DISCORD_CHANNEL_ID" doc.discordChannelId }

/-- Spec-side outcome list, for the aggregation claim: the outcomes of
the component deployments of one cluster, in order, threading the
remote state the way the run does. -/
def componentOutcomes (env : Env) (cfg : Config) (clusterName : String) (c : Cluster)
    (dryRun : Bool) : List String → RemoteFS → List Bool × RemoteFS
  | [], fs => ([], fs)
  | comp :: rest, fs =>
    let r := deploy_component env cfg clusterName c comp dryRun fs
    let t := componentOutcomes env cfg clusterName c dryRun rest r.2.1
    (r.1 :: t.1, t.2)

/-- Spec-side outcome list of one cluster of the run: the unknown
cluster is one failed outcome, otherwise the name-configuration
outcome (when requested), the per-component outcomes and the
config-deployment outcome (when requested), in run order. -/
def clusterOutcomes (env : Env) (cfg : Config) (components : List String) (profile : String)
    (dryRun deployConfigsFlag configureNames : Bool) (clusterName : String)
    (fs : RemoteFS) : List Bool × RemoteFS :=
  match lookupStr cfg.clusters clusterName with
  | none => ([false], fs)
  | some c =>
    let t1 :=
      if configureNames then
        let r := configure_server_names env clusterName c dryRun fs
        ([r.1], r.2.1)
      else ([], fs)
    let t2 := componentOutcomes env cfg clusterName c dryRun components t1.2
    let t3 :=
      if deployConfigsFlag then
        let r := deploy_configs env cfg clusterName c profile dryRun t2.2
        ([r.1], r.2.1)
      else ([], t2.2)
    (t1.1 ++ t2.1 ++ t3.1, t3.2)

/-- Spec-side outcome list of a whole run, per the aggregation sentence
of the spec: every per-cluster, per-component, per-name-configuration
and per-config-deploy outcome, in order of occurrence. -/
def deployOutcomes (env : Env) (cfg : Config) (components : List String) (profile : String)
    (dryRun deployConfigsFlag configureNames : Bool) :
    List String → RemoteFS → List Bool × RemoteFS
  | [], fs => ([], fs)
  | n :: rest, fs =>
    let t1 := clusterOutcomes env cfg components profile dryRun deployConfigsFlag
      configureNames n fs
    let t2 := deployOutcomes env cfg components profile dryRun deployConfigsFlag
      configureNames rest t1.2
    (t1.1 ++ t2.1, t2.2)

/-- The ancestor chain of a path, leaf first, the root excluded (the
walk of _mkdir_p visits exactly these candidates). -/
def pathChain (p : RPath) : List RPath :=
  if h : p = [] then [] else p :: pathChain p.dropLast
termination_by p.length
decreasing_by
  have hp : 0 < p.length := List.length_pos.mpr h
  simp only [List.length_dropLast]
  omega

/-- A well-formed remote directory set: the parent of every existing
directory exists (true of a real filesystem). -/
def ancestorClosed (fs : RemoteFS) : Prop :=
  ∀ q ∈ fs.dirs, statDir fs q.dropLast

instance (fs : RemoteFS) : Decidable (ancestorClosed fs) := by
  unfold ancestorClosed; infer_instance

/-- The outcome of one file of deploy_component, as a function of the
environment alone: skipped-missing sources never fail, present sources
fail exactly when the upload does. -/
def fileOutcome (env : Env) (user sd : String) (pc : PathMapping) : Bool :=
  if pc.source ∈ env.localFiles then env.uploadOK (["home", user] ++ [sd] ++ pc.dest)
  else true

/-- Empty remote filesystem fixture. -/
def fs0 : RemoteFS := { dirs := [], files := [] }

/-- Benign environment fixture: one local artifact, every remote
operation succeeds. -/
def envW : Env :=
  { localFiles := ["bin/engine.so"]
    contentOf := fun _ => "newbits"
    connectOK := fun _ => true
    uploadOK := fun _ => true
    backupExecFails := false
    timestamp := "20260101_120000"
    version := "v1"
    templates := none
    render := fun _ _ _ _ => ""
    httpOK := true
    httpRaises := false }

/-- One-port cluster fixture. -/
def clusterW : Cluster :=
  { host := some "h1"
    user := "ktp"
    password := none
    ports := [27015]
    hostname := none
    serverNamePfx := none
    test_cluster := false
    description := none }

/-- Engine path mapping fixture. -/
def pcW : PathMapping :=
  { source := "bin/engine.so", dest := ["serverfiles", "engine.so"], chmod := none }

/-- Configuration fixture: one cluster, one component. -/
def cfgW : Config :=
  { clusters := [("denver", clusterW)]
    paths := [("engine", [pcW])]
    profiles := []
    discordRelayUrl := none
    discordRelaySecret := none
    discordChannelId := none }

/-- Remote filesystem fixture with the engine destination present. -/
def fsPre : RemoteFS :=
  { dirs := [["home", "ktp"], ["home", "ktp", "dod-27015"],
             ["home", "ktp", "dod-27015", "serverfiles"]]
    files := [(["home", "ktp", "dod-27015", "serverfiles", "engine.so"], "oldbits")] }

/-- Process environment fixture with one variable set to the empty string. -/
def environC9 : String → Option String :=
  fun k => if k = "KTP_DENVER_HOST" then some "" else none

/-- Document fixture for the override claims. -/
def docC9 : ConfigDoc :=
  { clusters := [("denver", { host := some "dochost", user := some "u", password := none })]
    dataServerIp := none
    discordRelayUrl := none
    discordRelaySecret := none
    discordChannelId := none }

/-- Fresh run accumulator fixture. -/
def accW : DAcc := { success := true, errors := [], fs := fs0, trace := [] }

/-- Environment fixture in which every upload fails. -/
def envUpFail : Env := { envW with uploadOK := fun _ => false }

/-- The success flag deploy_component computes, expressed as a function
of the environment and configuration alone (the remote filesystem never
influences it): used to show the flag is independent of backup fate. -/
def deployComponentOutcome (env : Env) (cfg : Config) (c : Cluster) (comp : String)
    (dryRun : Bool) : Bool :=
  if truthyS c.host = false then false
  else if ((lookupStr cfg.paths comp).getD []).isEmpty then false
  else if dryRun then true
  else
    match c.host with
    | none => false
    | some h =>
      if env.connectOK h then
        ((get_server_dirs c).map (fun sd =>
          (((lookupStr cfg.paths comp).getD []).map (fileOutcome env c.user sd)).all id)).all id
      else false

/-- In dry-run mode deploy_component returns before its connect: the
remote state and the trace are untouched. -/
theorem deploy_component_dry (env : Env) (cfg : Config) (n : String) (c : Cluster)
    (comp : String) (fs : RemoteFS) :
    (deploy_component env cfg n c comp true fs).2 = (fs, []) := by
  unfold deploy_component
  by_cases h1 : truthyS c.host = false
  · simp [h1]
  · by_cases h2 : ((lookupStr cfg.paths comp).getD []).isEmpty
    · simp [h1, h2]
    · simp [h1, h2]

/-- In dry-run mode configure_server_names returns true without remote interaction. -/
theorem configure_server_names_dry (env : Env) (n : String) (c : Cluster) (fs : RemoteFS) :
    configure_server_names env n c true fs = (true, fs, []) := rfl

/-- In dry-run mode deploy_configs returns true without remote interaction. -/
theorem deploy_configs_dry (env : Env) (cfg : Config) (n : String) (c : Cluster)
    (profile : String) (fs : RemoteFS) :
    deploy_configs env cfg n c profile true fs = (true, fs, []) := by
  unfold deploy_configs
  cases env.templates
  · rfl
  · rfl

/-- C1: for every invocation with dry-run enabled, no remote connection
is opened and no remote state is changed: deploy_component,
configure_server_names and deploy_configs each return with an empty
event trace and the filesystem unchanged, for every cluster, component
and profile. -/
theorem C1_dry_run_purity (env : Env) (cfg : Config) (n : String) (c : Cluster)
    (comp profile : String) (fs : RemoteFS) :
    (deploy_component env cfg n c comp true fs).2 = (fs, [])
    ∧ (configure_server_names env n c true fs).2 = (fs, [])
    ∧ (deploy_configs env cfg n c profile true fs).2 = (fs, []) := by
  refine ⟨deploy_component_dry env cfg n c comp fs, ?_, ?_⟩
  · rw [configure_server_names_dry]
  · rw [deploy_configs_dry]

/-- A dry-run component step leaves the filesystem untouched. -/
theorem deployComponentStep_dry_fs (env : Env) (cfg : Config) (n : String) (c : Cluster)
    (acc : DAcc) (comp : String) :
    (deployComponentStep env cfg n c true acc comp).fs = acc.fs := by
  have h := deploy_component_dry env cfg n c comp acc.fs
  unfold deployComponentStep
  cases hb : (deploy_component env cfg n c comp true acc.fs).1 <;> simp [hb, h]

/-- A dry-run component step leaves the trace untouched. -/
theorem deployComponentStep_dry_trace (env : Env) (cfg : Config) (n : String) (c : Cluster)
    (acc : DAcc) (comp : String) :
    (deployComponentStep env cfg n c true acc comp).trace = acc.trace := by
  have h := deploy_component_dry env cfg n c comp acc.fs
  unfold deployComponentStep
  cases hb : (deploy_component env cfg n c comp true acc.fs).1 <;> simp [hb, h]

/-- The dry-run component loop leaves the filesystem untouched. -/
theorem foldl_deployComponentStep_dry_fs (env : Env) (cfg : Config) (n : String)
    (c : Cluster) :
    ∀ (comps : List String) (acc : DAcc),
      (comps.foldl (deployComponentStep env cfg n c true) acc).fs = acc.fs
  | [], _ => rfl
  | comp :: rest, acc => by
    rw [List.foldl_cons]
    exact (foldl_deployComponentStep_dry_fs env cfg n c rest _).trans
      (deployComponentStep_dry_fs env cfg n c acc comp)

/-- The dry-run component loop leaves the trace untouched. -/
theorem foldl_deployComponentStep_dry_trace (env : Env) (cfg : Config) (n : String)
    (c : Cluster) :
    ∀ (comps : List String) (acc : DAcc),
      (comps.foldl (deployComponentStep env cfg n c true) acc).trace = acc.trace
  | [], _ => rfl
  | comp :: rest, acc => by
    rw [List.foldl_cons]
    exact (foldl_deployComponentStep_dry_trace env cfg n c rest _).trans
      (deployComponentStep_dry_trace env cfg n c acc comp)

/-- A dry-run cluster step leaves the filesystem untouched. -/
theorem deployCluster_dry_fs (env : Env) (cfg : Config) (comps : List String)
    (profile : String) (dc cn : Bool) (acc : DAcc) (n : String) :
    (deployCluster env cfg comps profile true dc cn acc n).fs = acc.fs := by
  unfold deployCluster
  cases hl : lookupStr cfg.clusters n
  · simp
  · cases cn <;> cases dc <;>
      simp [configure_server_names_dry, deploy_configs_dry,
        foldl_deployComponentStep_dry_fs]

/-- A dry-run cluster step leaves the trace untouched. -/
theorem deployCluster_dry_trace (env : Env) (cfg : Config) (comps : List String)
    (profile : String) (dc cn : Bool) (acc : DAcc) (n : String) :
    (deployCluster env cfg comps profile true dc cn acc n).trace = acc.trace := by
  unfold deployCluster
  cases hl : lookupStr cfg.clusters n
  · simp
  · cases cn <;> cases dc <;>
      simp [configure_server_names_dry, deploy_configs_dry,
        foldl_deployComponentStep_dry_fs, foldl_deployComponentStep_dry_trace]

/-- The dry-run cluster loop leaves the trace untouched. -/
theorem foldl_deployCluster_dry_trace (env : Env) (cfg : Config) (comps : List String)
    (profile : String) (dc cn : Bool) :
    ∀ (clusters : List String) (acc : DAcc),
      (clusters.foldl (deployCluster env cfg comps profile true dc cn) acc).trace = acc.trace
  | [], _ => rfl
  | n :: rest, acc => by
    rw [List.foldl_cons]
    exact (foldl_deployCluster_dry_trace env cfg comps profile dc cn rest _).trans
      (deployCluster_dry_trace env cfg comps profile dc cn acc n)

/-- C10: with dry-run enabled the notification sink is never contacted
even when notification is requested: the run with notify requested is
identical to the run without it, and the event trace of the dry run is
empty (in particular it holds no HTTP POST). -/
theorem C10_dry_run_never_notifies (env : Env) (cfg : Config)
    (clusters comps : List String) (profile : String) (dc cn : Bool) (fs : RemoteFS) :
    deploy env cfg clusters comps profile true dc cn true fs
      = deploy env cfg clusters comps profile true dc cn false fs
    ∧ (deploy env cfg clusters comps profile true dc cn true fs).trace = [] := by
  constructor
  · rfl
  · exact foldl_deployCluster_dry_trace env cfg comps profile dc cn clusters _

/-- A component with no configured path mappings makes deploy_component
return false with no remote interaction at all. -/
theorem deploy_component_empty_paths (env : Env) (cfg : Config) (n : String) (c : Cluster)
    (comp : String) (dryRun : Bool) (fs : RemoteFS)
    (h : (lookupStr cfg.paths comp).getD [] = []) :
    deploy_component env cfg n c comp dryRun fs = (false, fs, []) := by
  unfold deploy_component
  by_cases h1 : truthyS c.host = false
  · simp [h1]
  · simp [h1, h]

/-- C3 counterexample: a run over one healthy cluster whose only
component is unknown ends with overall failure and one recorded error,
so an unknown component does, by itself, flip the aggregate result. -/
theorem C3_counterexample :
    (deploy envW cfgW ["denver"] ["nonexistent"] "online" false false false false fs0).success
      = false
    ∧ (deploy envW cfgW ["denver"] ["nonexistent"] "online" false false false false fs0).errors
      = ["denver: Failed to deploy nonexistent"] :=
  ⟨rfl, rfl⟩

/-- C3 amended: an unknown component, or one with an empty path-mapping
list, produces only a logged warning and no remote action (no
connection, remote state unchanged), but it is counted as a failed
outcome: deploy appends one error for it and the overall aggregate
result flips to failure, while the run continues with the remaining
components and clusters. -/
theorem C3_unknown_component_recorded_failure (env : Env) (cfg : Config) (n : String)
    (c : Cluster) (comp : String) (dryRun : Bool) (fs : RemoteFS)
    (h : (lookupStr cfg.paths comp).getD [] = []) :
    deploy_component env cfg n c comp dryRun fs = (false, fs, [])
    ∧ ∀ (acc : DAcc) (rest : List String),
        (comp :: rest).foldl (deployComponentStep env cfg n c dryRun) acc
          = rest.foldl (deployComponentStep env cfg n c dryRun)
              { acc with
                success := false
                errors := acc.errors ++ [n ++ ": Failed to deploy " ++ comp] } := by
  refine ⟨deploy_component_empty_paths env cfg n c comp dryRun fs h, ?_⟩
  intro acc rest
  rw [List.foldl_cons]
  congr 1
  unfold deployComponentStep
  rw [deploy_component_empty_paths env cfg n c comp dryRun acc.fs h]
  simp

/-- C3 witness: the amended behaviour at a concrete unknown component. -/
theorem C3_unknown_component_recorded_failure_witness :
    deploy_component envW cfgW "denver" clusterW "nonexistent" false fs0 = (false, fs0, [])
    ∧ ["nonexistent"].foldl (deployComponentStep envW cfgW "denver" clusterW false) accW
      = { accW with
          success := false
          errors := accW.errors ++ ["denver: Failed to deploy nonexistent"] } :=
  ⟨(C3_unknown_component_recorded_failure envW cfgW "denver" clusterW "nonexistent"
      false fs0 (by decide)).1,
   (C3_unknown_component_recorded_failure envW cfgW "denver" clusterW "nonexistent"
      false fs0 (by decide)).2 accW []⟩

/-- C4 counterexample: a real deployment whose only mapping has a
missing local source returns outcome true (the file is skipped with a
warning), not the failed outcome the claim requires. -/
theorem C4_counterexample :
    deploy_component { envW with localFiles := [] } cfgW "denver" clusterW "engine" false fs0
      = (true, fs0, [Event.connect "h1"]) :=
  rfl

/-- C4 amended: during a real component deployment, a missing local
source artifact only logs a warning and skips that file, leaving the
component outcome unchanged; an upload failure flips the outcome to
failed; in both cases processing continues with the remaining files of
the loop. -/
theorem C4_missing_source_skips_upload_fail_flips (env : Env) (user sd : String)
    (acc : Bool × RemoteFS) (pc : PathMapping) (rest : List PathMapping) :
    (pc.source ∉ env.localFiles → deployFile env user sd acc pc = acc)
    ∧ (pc.source ∈ env.localFiles →
        env.uploadOK (["home", user] ++ [sd] ++ pc.dest) = false →
        (deployFile env user sd acc pc).1 = false)
    ∧ (pc :: rest).foldl (deployFile env user sd) acc
        = rest.foldl (deployFile env user sd) (deployFile env user sd acc pc) := by
  refine ⟨?_, ?_, rfl⟩
  · intro h
    unfold deployFile
    simp [h]
  · intro h1 h2
    unfold deployFile
    simp only [List.cons_append, List.nil_append] at h2
    simp [h1, h2]

/-- C4 witness: the amended behaviour at concrete inputs. -/
theorem C4_missing_source_skips_upload_fail_flips_witness :
    deployFile { envW with localFiles := [] } "ktp" "dod-27015" (true, fs0) pcW = (true, fs0)
    ∧ (deployFile envUpFail "ktp" "dod-27015" (true, fsPre) pcW).1 = false :=
  ⟨(C4_missing_source_skips_upload_fail_flips { envW with localFiles := [] } "ktp"
      "dod-27015" (true, fs0) pcW []).1 (by decide),
   (C4_missing_source_skips_upload_fail_flips envUpFail "ktp"
      "dod-27015" (true, fsPre) pcW []).2.1 (by decide) rfl⟩

/-- C8 counterexample: name configuration for a cluster whose host is
the empty string does attempt a connection (ssh.connect is reached and
a connect event to the empty host is emitted), contradicting the claim
that such a cluster is skipped with no connection ever attempted. -/
theorem C8_counterexample :
    (configure_server_names { envW with connectOK := fun h => !h.isEmpty } "denver"
        { clusterW with host := some "" } false fs0).2.2 = [Event.connect ""] :=
  rfl

/-- C8 amended: deploy_component skips a cluster whose host is missing
or empty before connecting; configure_server_names and deploy_configs
do not pre-check the host: with the host key absent they fail while
building the connection arguments, before any connection attempt (empty
trace), but with an empty host string a connection attempt is made; an
unknown cluster name is skipped by the deploy loop with one recorded
error and a cleared success flag. -/
theorem C8_no_address_inert (env : Env) (cfg : Config) (n comp profile : String)
    (c : Cluster) (fs : RemoteFS) (comps : List String) (dr dc cn : Bool) (acc : DAcc) :
    (truthyS c.host = false → deploy_component env cfg n c comp false fs = (false, fs, []))
    ∧ (c.host = none → configure_server_names env n c false fs = (false, fs, []))
    ∧ (c.host = none → (deploy_configs env cfg n c profile false fs).2 = (fs, []))
    ∧ (lookupStr cfg.clusters n = none →
        deployCluster env cfg comps profile dr dc cn acc n
          = { acc with
              success := false
              errors := acc.errors ++ ["Unknown cluster: " ++ n] })
    ∧ (c.host = some "" →
        (configure_server_names env n c false fs).2.2 = [Event.connect ""]) := by
  refine ⟨?_, ?_, ?_, ?_, ?_⟩
  · intro h
    unfold deploy_component
    simp [h]
  · intro h
    unfold configure_server_names
    simp [h]
  · intro h
    unfold deploy_configs
    cases env.templates
    · rfl
    · simp [h]
  · intro h
    unfold deployCluster
    rw [h]
  · intro h
    unfold configure_server_names
    cases hb : env.connectOK "" <;> simp [h, hb]

/-- C8 witness: the amended behaviour at concrete inputs. -/
theorem C8_no_address_inert_witness :
    deploy_component envW cfgW "denver" { clusterW with host := none } "engine" false fs0
      = (false, fs0, [])
    ∧ configure_server_names envW "denver" { clusterW with host := none } false fs0
      = (false, fs0, [])
    ∧ (deploy_configs envW cfgW "denver" { clusterW with host := none } "online" false fs0).2
      = (fs0, [])
    ∧ deployCluster envW cfgW ["engine"] "online" false false false accW "atlanta"
      = { accW with
          success := false
          errors := accW.errors ++ ["Unknown cluster: atlanta"] }
    ∧ (configure_server_names envW "denver" { clusterW with host := some "" } false fs0).2.2
      = [Event.connect ""] :=
  ⟨(C8_no_address_inert envW cfgW "denver" "engine" "online" { clusterW with host := none }
      fs0 ["engine"] false false false accW).1 rfl,
   (C8_no_address_inert envW cfgW "denver" "engine" "online" { clusterW with host := none }
      fs0 ["engine"] false false false accW).2.1 rfl,
   (C8_no_address_inert envW cfgW "denver" "engine" "online" { clusterW with host := none }
      fs0 ["engine"] false false false accW).2.2.1 rfl,
   (C8_no_address_inert envW cfgW "atlanta" "engine" "online" clusterW
      fs0 ["engine"] false false false accW).2.2.2.1 (by decide),
   (C8_no_address_inert envW cfgW "denver" "engine" "online" { clusterW with host := some "" }
      fs0 ["engine"] false false false accW).2.2.2.2 rfl⟩

/-- A set, non-empty environment variable overrides the document value. -/
theorem envOverride_set_nonempty (environ : String → Option String) (k : String)
    (old : Option String) (v : String) (h : environ k = some v) (hv : v ≠ "") :
    envOverride environ k old = some v := by
  unfold envOverride
  rw [h]
  have hE : v.isEmpty = false := by
    cases hE : v.isEmpty
    · rfl
    · exact absurd ((String.isEmpty_iff v).mp hE) hv
  simp [hE]

/-- An unset environment variable keeps the document value. -/
theorem envOverride_unset (environ : String → Option String) (k : String)
    (old : Option String) (h : environ k = none) :
    envOverride environ k old = old := by
  unfold envOverride
  rw [h]

/-- An environment variable set to the empty string keeps the document value. -/
theorem envOverride_empty (environ : String → Option String) (k : String)
    (old : Option String) (h : environ k = some "") :
    envOverride environ k old = old := by
  unfold envOverride
  rw [h]
  rfl

/-- C9 counterexample: KTP_DENVER_HOST is set (to the empty string),
yet the loaded configuration keeps the document host value, so the
environment does not always win over the document. -/
theorem C9_counterexample :
    environC9 "KTP_DENVER_HOST" = some ""
    ∧ (load_config environC9 docC9).clusters
      = [("denver", { host := some "dochost", user := some "u", password := none })] :=
  ⟨rfl, rfl⟩

/-- C9 amended: for every cluster credential field and every top-level
relay field, an environment variable set to a non-empty value replaces
the document value in the loaded configuration, while a variable that
is unset or set to the empty string leaves the document value in
place. -/
theorem C9_env_wins_when_nonempty (environ : String → Option String) (n : String)
    (cc : ClusterDoc) (doc : ConfigDoc) (v : String) :
    ((load_config environ doc).clusters
        = doc.clusters.map (fun e => (e.1, applyClusterOverrides environ e.1 e.2)))
    ∧ (environ ("KTP_" ++ strUpper n ++ "_" ++ "HOST") = some v → v ≠ "" →
        (applyClusterOverrides environ n cc).host = some v)
    ∧ (environ ("KTP_" ++ strUpper n ++ "_" ++ "USER") = some v → v ≠ "" →
        (applyClusterOverrides environ n cc).user = some v)
    ∧ (environ ("KTP_" ++ strUpper n ++ "_" ++ "PASSWORD") = some v → v ≠ "" →
        (applyClusterOverrides environ n cc).password = some v)
    ∧ (environ "KTP_DATA_SERVER_IP" = some v → v ≠ "" →
        (load_config environ doc).dataServerIp = some v)
    ∧ (environ "KTP_DISCORD_RELAY_URL" = some v → v ≠ "" →
        (load_config environ doc).discordRelayUrl = some v)
    ∧ (environ "KTP_DISCORD_RELAY_SECRET" = some v → v ≠ "" →
        (load_config environ doc).discordRelaySecret = some v)
    ∧ (environ "KTP_DISCORD_CHANNEL_ID" = some v → v ≠ "" →
        (load_config environ doc).discordChannelId = some v)
    ∧ (environ ("KTP_" ++ strUpper n ++ "_" ++ "HOST") = some "" →
        (applyClusterOverrides environ n cc).host = cc.host)
    ∧ (environ ("KTP_" ++ strUpper n ++ "_" ++ "HOST") = none →
        (applyClusterOverrides environ n cc).host = cc.host) := by
  refine ⟨rfl, ?_, ?_, ?_, ?_, ?_, ?_, ?_, ?_, ?_⟩
  · intro h hv
    exact envOverride_set_nonempty environ _ cc.host v h hv
  · intro h hv
    exact envOverride_set_nonempty environ _ cc.user v h hv
  · intro h hv
    exact envOverride_set_nonempty environ _ cc.password v h hv
  · intro h hv
    exact envOverride_set_nonempty environ _ doc.dataServerIp v h hv
  · intro h hv
    exact envOverride_set_nonempty environ _ doc.discordRelayUrl v h hv
  · intro h hv
    exact envOverride_set_nonempty environ _ doc.discordRelaySecret v h hv
  · intro h hv
    exact envOverride_set_nonempty environ _ doc.discordChannelId v h hv
  · intro h
    exact envOverride_empty environ _ cc.host h
  · intro h
    exact envOverride_unset environ _ cc.host h

/-- C9 witness: a non-empty variable overrides, an empty one keeps the
document value, at concrete inputs. -/
theorem C9_env_wins_when_nonempty_witness :
    (applyClusterOverrides (fun k => if k = "KTP_DENVER_HOST" then some "envhost" else none)
        "denver" { host := some "dochost", user := some "u", password := none }).host
      = some "envhost"
    ∧ (applyClusterOverrides environC9 "denver"
        { host := some "dochost", user := some "u", password := none }).host
      = some "dochost" :=
  ⟨(C9_env_wins_when_nonempty
      (fun k => if k = "KTP_DENVER_HOST" then some "envhost" else none) "denver"
      { host := some "dochost", user := some "u", password := none } docC9 "envhost").2.1
      (by decide) (by decide),
   (C9_env_wins_when_nonempty environC9 "denver"
      { host := some "dochost", user := some "u", password := none } docC9
      "").2.2.2.2.2.2.2.2.1 (by decide)⟩

/-- sftp.mkdir does not touch files. -/
theorem files_sftpMkdir (fs : RemoteFS) (d : RPath) : (sftpMkdir fs d).files = fs.files := by
  unfold sftpMkdir
  split
  · rfl
  · split <;> rfl

/-- A fold of sftp.mkdir calls does not touch files. -/
theorem files_foldl_sftpMkdir :
    ∀ (l : List RPath) (fs : RemoteFS), (l.foldl sftpMkdir fs).files = fs.files
  | [], _ => rfl
  | d :: rest, fs => by
    rw [List.foldl_cons]
    exact (files_foldl_sftpMkdir rest _).trans (files_sftpMkdir fs d)

/-- _mkdir_p does not touch files. -/
theorem files_mkdir_p (fs : RemoteFS) (p : RPath) : (mkdir_p fs p).files = fs.files :=
  files_foldl_sftpMkdir _ _

/-- The ensure-directory statement of deploy_component preserves file lookups. -/
theorem findFile_mkdirMaybe (fs : RemoteFS) (p q : RPath) :
    findFile (if statDir fs p then fs else mkdir_p fs p) q = findFile fs q := by
  split
  · rfl
  · unfold findFile
    rw [files_mkdir_p]

/-- Dropping the entries at one key does not change lookups at another key. -/
theorem find?_filter_ne (l : List (RPath × String)) (p q : RPath) (h : q ≠ p) :
    (l.filter (fun e => ¬ e.1 = p)).find? (fun e => e.1 = q)
      = l.find? (fun e => e.1 = q) := by
  induction l with
  | nil => rfl
  | cons e rest ih =>
    by_cases hep : e.1 = p
    · have hq : ¬ e.1 = q := fun heq => h (by rw [← heq, hep])
      rw [List.filter_cons_of_neg (by simp [hep]),
        List.find?_cons_of_neg _ (by simp [hq])]
      exact ih
    · by_cases heq : e.1 = q
      · rw [List.filter_cons_of_pos (by simp [hep]),
          List.find?_cons_of_pos _ (by simp [heq]),
          List.find?_cons_of_pos _ (by simp [heq])]
      · rw [List.filter_cons_of_pos (by simp [hep]),
          List.find?_cons_of_neg _ (by simp [heq]),
          List.find?_cons_of_neg _ (by simp [heq])]
        exact ih

/-- Lookup after putFile at the written path. -/
theorem findFile_putFile_same (fs : RemoteFS) (p : RPath) (c : String) :
    findFile (putFile fs p c) p = some c := by
  unfold findFile putFile
  simp

/-- Lookup after putFile at any other path. -/
theorem findFile_putFile_other (fs : RemoteFS) (p : RPath) (c : String) (q : RPath)
    (h : q ≠ p) : findFile (putFile fs p c) q = findFile fs q := by
  unfold findFile putFile
  have hpq : ¬ (p = q) := fun e => h e.symm
  rw [List.find?_cons_of_neg]
  · rw [find?_filter_ne fs.files p q h]
  · simp [hpq]

/-- C5: for every real deployment of one file, if the destination
exists remotely before the upload then a backup named
basename.timestamp.bak is created under the per-version backup
directory holding the pre-deploy content while the destination ends up
overwritten with the uploaded content; if the destination does not
exist, the backup step is a no-op and no file other than the
destination is created or changed. -/
theorem C5_backup_before_overwrite (env : Env) (user sd : String) (success : Bool)
    (fs : RemoteFS) (pc : PathMapping)
    (hsrc : pc.source ∈ env.localFiles)
    (hbk : env.backupExecFails = false)
    (hup : env.uploadOK (["home", user] ++ [sd] ++ pc.dest) = true)
    (hsd : sd ≠ "backups") :
    (∀ content, findFile fs (["home", user] ++ [sd] ++ pc.dest) = some content →
        findFile (deployFile env user sd (success, fs) pc).2
            (["home", user, "backups", env.version]
              ++ [((["home", user] ++ [sd] ++ pc.dest).getLast?).getD ""
                    ++ "." ++ env.timestamp ++ ".bak"])
          = some content
        ∧ findFile (deployFile env user sd (success, fs) pc).2
            (["home", user] ++ [sd] ++ pc.dest)
          = some (env.contentOf pc.source))
    ∧ (findFile fs (["home", user] ++ [sd] ++ pc.dest) = none →
        ∀ q, q ≠ (["home", user] ++ [sd] ++ pc.dest) →
          findFile (deployFile env user sd (success, fs) pc).2 q = findFile fs q) := by
  simp only [List.cons_append, List.nil_append] at hup ⊢
  have hne : ("home" :: user :: "backups" :: env.version
        :: [(("home" :: user :: sd :: pc.dest).getLast?).getD ""
              ++ "." ++ env.timestamp ++ ".bak"])
      ≠ ("home" :: user :: sd :: pc.dest) := by
    intro heq
    have h2 := congrArg (fun l : List String => l[2]?) heq
    simp at h2
    exact hsd h2.symm
  constructor
  · intro content hcont
    unfold deployFile
    simp only [hsrc, if_true, List.cons_append, List.nil_append, hup, ite_true]
    refine ⟨?_, findFile_putFile_same _ _ _⟩
    rw [findFile_putFile_other _ _ _ _ hne]
    unfold backup_file_via_ssh
    rw [hbk]
    simp only [Bool.false_eq_true, if_false]
    unfold backupAttempt
    rw [findFile_mkdirMaybe, hcont]
    exact findFile_putFile_same _ _ _
  · intro hnone q hq
    unfold deployFile
    simp only [hsrc, if_true, List.cons_append, List.nil_append, hup, ite_true]
    rw [findFile_putFile_other _ _ _ _ hq]
    unfold backup_file_via_ssh
    rw [hbk]
    simp only [Bool.false_eq_true, if_false]
    unfold backupAttempt
    rw [findFile_mkdirMaybe, hnone]
    exact findFile_mkdirMaybe fs _ q

/-- C5 witness: concrete pre-existing destination gets backed up with
its old content and overwritten with the uploaded content. -/
theorem C5_backup_before_overwrite_witness :
    findFile (deployFile envW "ktp" "dod-27015" (true, fsPre) pcW).2
        ["home", "ktp", "backups", "v1", "engine.so.20260101_120000.bak"]
      = some "oldbits"
    ∧ findFile (deployFile envW "ktp" "dod-27015" (true, fsPre) pcW).2
        ["home", "ktp", "dod-27015", "serverfiles", "engine.so"]
      = some "newbits" := by
  have h := (C5_backup_before_overwrite envW "ktp" "dod-27015" true fsPre pcW
    (by decide) rfl rfl (by decide)).1 "oldbits" (by decide)
  exact ⟨h.1, h.2⟩

/-- The Bool component of one deployFile step factors through fileOutcome. -/
theorem deployFile_fst (env : Env) (user sd : String) (acc : Bool × RemoteFS)
    (pc : PathMapping) :
    (deployFile env user sd acc pc).1 = (acc.1 && fileOutcome env user sd pc) := by
  unfold deployFile fileOutcome
  by_cases h : pc.source ∈ env.localFiles
  · cases hu : env.uploadOK ("home" :: user :: sd :: pc.dest) <;> simp [h, hu]
  · simp [h]

/-- The Bool component of the inner file loop. -/
theorem foldl_deployFile_fst (env : Env) (user sd : String) :
    ∀ (l : List PathMapping) (acc : Bool × RemoteFS),
      (l.foldl (deployFile env user sd) acc).1
        = (acc.1 && (l.map (fileOutcome env user sd)).all id)
  | [], acc => by simp
  | pc :: rest, acc => by
    rw [List.foldl_cons, foldl_deployFile_fst env user sd rest _, deployFile_fst]
    simp [Bool.and_assoc]

/-- The Bool component of the server-directory loop. -/
theorem foldl_serverdir_fst (env : Env) (user : String) (paths : List PathMapping) :
    ∀ (sds : List String) (acc : Bool × RemoteFS),
      ((sds.foldl (fun a sd => paths.foldl (deployFile env user sd) a) acc).1)
        = (acc.1 && (sds.map (fun sd => (paths.map (fileOutcome env user sd)).all id)).all id)
  | [], acc => by simp
  | sd :: rest, acc => by
    rw [List.foldl_cons, foldl_serverdir_fst env user paths rest _, foldl_deployFile_fst]
    simp [Bool.and_assoc]

/-- The success flag of deploy_component depends only on environment
and configuration, never on the remote filesystem. -/
theorem deploy_component_fst (env : Env) (cfg : Config) (n : String) (c : Cluster)
    (comp : String) (dryRun : Bool) (fs : RemoteFS) :
    (deploy_component env cfg n c comp dryRun fs).1
      = deployComponentOutcome env cfg c comp dryRun := by
  unfold deploy_component deployComponentOutcome
  by_cases h1 : truthyS c.host = false
  · simp [h1]
  · by_cases h2 : ((lookupStr cfg.paths comp).getD []).isEmpty
    · simp [h1, h2]
    · by_cases h3 : dryRun
      · simp [h1, h2, h3]
      · cases hh : c.host with
        | none => simp [h1, h2, h3, hh]
        | some h =>
          have ht : truthyS (some h) = true := by
            rw [← hh]
            cases hb : truthyS c.host
            · exact absurd hb h1
            · rfl
          cases hc : env.connectOK h <;>
            simp [h1, h2, h3, hh, hc, ht, foldl_serverdir_fst]

/-- C6: _backup_file_via_ssh swallows every exception (a failing backup
leaves the remote filesystem unchanged and returns), and the success
flag of the enclosing component deployment is unaffected by whether the
backup succeeded or failed. -/
theorem C6_backup_never_raises_never_flips (env : Env) (cfg : Config) (n : String)
    (c : Cluster) (comp : String) (dryRun : Bool) (fs : RemoteFS) (rp bd : RPath)
    (b b' : Bool) :
    backup_file_via_ssh { env with backupExecFails := true } fs rp bd = fs
    ∧ (deploy_component { env with backupExecFails := b } cfg n c comp dryRun fs).1
      = (deploy_component { env with backupExecFails := b' } cfg n c comp dryRun fs).1 := by
  constructor
  · rfl
  · rw [deploy_component_fst, deploy_component_fst]
    rfl

/-- sftp.mkdir only grows the directory set. -/
theorem statDir_sftpMkdir (fs : RemoteFS) (d q : RPath) (h : statDir fs q) :
    statDir (sftpMkdir fs d) q := by
  unfold sftpMkdir
  split
  · exact h
  · split
    · exact h.imp_right (List.mem_cons_of_mem d)
    · exact h

/-- A fold of sftp.mkdir calls only grows the directory set. -/
theorem statDir_foldl_sftpMkdir :
    ∀ (l : List RPath) (fs : RemoteFS) (q : RPath), statDir fs q →
      statDir (l.foldl sftpMkdir fs) q
  | [], _, _, h => h
  | d :: rest, fs, q, h => by
    rw [List.foldl_cons]
    exact statDir_foldl_sftpMkdir rest _ q (statDir_sftpMkdir fs d q h)

/-- The upward walk stops immediately on an existing path. -/
theorem collectMissing_of_stat (fs : RemoteFS) (p : RPath) (h : statDir fs p) :
    collectMissing fs p = [] := by
  rw [collectMissing.eq_def, dif_pos h]

/-- The upward walk steps to the parent on a missing path. -/
theorem collectMissing_of_not_stat (fs : RemoteFS) (p : RPath) (h : ¬ statDir fs p) :
    collectMissing fs p = p :: collectMissing fs p.dropLast := by
  rw [collectMissing.eq_def, dif_neg h]

/-- _mkdir_p on an existing path is the identity. -/
theorem mkdir_p_of_stat (fs : RemoteFS) (p : RPath) (h : statDir fs p) :
    mkdir_p fs p = fs := by
  unfold mkdir_p
  rw [collectMissing_of_stat fs p h]
  rfl

/-- _mkdir_p on a missing path first handles the parent chain, then
creates the leaf. -/
theorem mkdir_p_step (fs : RemoteFS) (p : RPath) (h : ¬ statDir fs p) :
    mkdir_p fs p = sftpMkdir (mkdir_p fs p.dropLast) p := by
  unfold mkdir_p
  rw [collectMissing_of_not_stat fs p h, List.reverse_cons, List.foldl_append]
  rfl

/-- After _mkdir_p the target directory exists. -/
theorem statDir_mkdir_p :
    ∀ (n : Nat) (p : RPath) (fs : RemoteFS), p.length ≤ n → statDir (mkdir_p fs p) p
  | 0, p, fs, hn => by
    have hp : p = [] := List.length_eq_zero.mp (Nat.le_zero.mp hn)
    subst hp
    exact Or.inl rfl
  | n + 1, p, fs, hn => by
    by_cases h : statDir fs p
    · rw [mkdir_p_of_stat fs p h]
      exact h
    · have hp : p ≠ [] := fun he => h (Or.inl he)
      have hpos : 0 < p.length := List.length_pos.mpr hp
      have hlen : p.dropLast.length ≤ n := by
        rw [List.length_dropLast]
        omega
      have ih := statDir_mkdir_p n p.dropLast fs hlen
      rw [mkdir_p_step fs p h]
      unfold sftpMkdir
      by_cases h2 : statDir (mkdir_p fs p.dropLast) p
      · rw [if_pos h2]
        exact h2
      · rw [if_neg h2, if_pos ih]
        exact Or.inr (List.mem_cons_self p _)

/-- sftp.mkdir preserves parent-closure of the directory set. -/
theorem ancestorClosed_sftpMkdir (fs : RemoteFS) (d : RPath) (hc : ancestorClosed fs) :
    ancestorClosed (sftpMkdir fs d) := by
  unfold sftpMkdir
  split
  · exact hc
  · split
    · next hpar =>
      intro q hq
      rcases List.mem_cons.mp hq with rfl | hq'
      · exact hpar.imp_right (List.mem_cons_of_mem q)
      · exact (hc q hq').imp_right (List.mem_cons_of_mem d)
    · exact hc

/-- A fold of sftp.mkdir calls preserves parent-closure. -/
theorem ancestorClosed_foldl_sftpMkdir :
    ∀ (l : List RPath) (fs : RemoteFS), ancestorClosed fs →
      ancestorClosed (l.foldl sftpMkdir fs)
  | [], _, hc => hc
  | d :: rest, fs, hc => by
    rw [List.foldl_cons]
    exact ancestorClosed_foldl_sftpMkdir rest _ (ancestorClosed_sftpMkdir fs d hc)

/-- _mkdir_p preserves parent-closure. -/
theorem ancestorClosed_mkdir_p (fs : RemoteFS) (p : RPath) (hc : ancestorClosed fs) :
    ancestorClosed (mkdir_p fs p) :=
  ancestorClosed_foldl_sftpMkdir _ fs hc

/-- On a parent-closed directory set, an existing path has all its
prefixes existing. -/
theorem statDir_take_of_closed :
    ∀ (n : Nat) (p : RPath) (fs : RemoteFS), p.length ≤ n → ancestorClosed fs →
      statDir fs p → ∀ k, statDir fs (p.take k)
  | 0, p, fs, hn, _, h, k => by
    have hp : p = [] := List.length_eq_zero.mp (Nat.le_zero.mp hn)
    subst hp
    simpa using h
  | n + 1, p, fs, hn, hc, h, k => by
    by_cases hk : p.length ≤ k
    · rw [List.take_of_length_le hk]
      exact h
    · have hp : p ≠ [] := by
        intro he
        subst he
        simp at hk
      have hparent : statDir fs p.dropLast := by
        rcases h with he | hm
        · exact absurd he hp
        · exact hc p hm
      have hpos : 0 < p.length := List.length_pos.mpr hp
      have hlen : p.dropLast.length ≤ n := by
        rw [List.length_dropLast]
        omega
      have ih := statDir_take_of_closed n p.dropLast fs hlen hc hparent k
      have heq : p.dropLast.take k = p.take k := by
        rw [List.dropLast_eq_take, List.take_take]
        congr 1
        omega
      rwa [heq] at ih

/-- On a parent-closed directory set, every entry of the ancestor chain
of an existing path exists. -/
theorem chain_all_stat :
    ∀ (n : Nat) (p : RPath) (fs : RemoteFS), p.length ≤ n → ancestorClosed fs →
      statDir fs p → ∀ q ∈ pathChain p, statDir fs q
  | 0, p, _, hn, _, _, q, hq => by
    have hp : p = [] := List.length_eq_zero.mp (Nat.le_zero.mp hn)
    subst hp
    rw [pathChain.eq_def, dif_pos rfl] at hq
    exact absurd hq (List.not_mem_nil q)
  | n + 1, p, fs, hn, hc, h, q, hq => by
    by_cases hp : p = []
    · subst hp
      rw [pathChain.eq_def, dif_pos rfl] at hq
      exact absurd hq (List.not_mem_nil q)
    · rw [pathChain.eq_def, dif_neg hp] at hq
      rcases List.mem_cons.mp hq with rfl | hq'
      · exact h
      · have hparent : statDir fs p.dropLast := by
          rcases h with he | hm
          · exact absurd he hp
          · exact hc p hm
        have hpos : 0 < p.length := List.length_pos.mpr hp
        have hlen : p.dropLast.length ≤ n := by
          rw [List.length_dropLast]
          omega
        exact chain_all_stat n p.dropLast fs hlen hc hparent q hq'

/-- On a parent-closed directory set, the upward walk collects exactly
the non-existent entries of the ancestor chain, leaf first. -/
theorem collectMissing_filter :
    ∀ (n : Nat) (p : RPath) (fs : RemoteFS), p.length ≤ n → ancestorClosed fs →
      collectMissing fs p = (pathChain p).filter (fun q => decide (¬ statDir fs q))
  | 0, p, fs, hn, _ => by
    have hp : p = [] := List.length_eq_zero.mp (Nat.le_zero.mp hn)
    subst hp
    rw [collectMissing_of_stat fs [] (Or.inl rfl), pathChain.eq_def, dif_pos rfl]
    rfl
  | n + 1, p, fs, hn, hc => by
    by_cases h : statDir fs p
    · rw [collectMissing_of_stat fs p h]
      symm
      rw [List.filter_eq_nil_iff]
      intro q hq
      have hs := chain_all_stat (n + 1) p fs hn hc h q hq
      simp [hs]
    · have hp : p ≠ [] := fun he => h (Or.inl he)
      have hpos : 0 < p.length := List.length_pos.mpr hp
      have hlen : p.dropLast.length ≤ n := by
        rw [List.length_dropLast]
        omega
      rw [collectMissing_of_not_stat fs p h]
      conv_rhs => rw [pathChain.eq_def]
      rw [dif_neg hp, List.filter_cons_of_pos (by simp [h])]
      rw [collectMissing_filter n p.dropLast fs hlen hc]

/-- C7: _mkdir_p is idempotent and creates the full parent chain: after
a run the target exists; a second run on the same path collects nothing
(so it performs no creation and can raise no error) and leaves the
state unchanged; on a parent-closed filesystem every prefix of the
target exists afterwards, and the walk collects exactly the
non-existent ancestors of the target, leaf first, before creating them
in root-to-leaf order. -/
theorem C7_mkdir_p_idempotent_full_chain (fs : RemoteFS) (p : RPath) :
    statDir (mkdir_p fs p) p
    ∧ collectMissing (mkdir_p fs p) p = []
    ∧ mkdir_p (mkdir_p fs p) p = mkdir_p fs p
    ∧ (ancestorClosed fs → ∀ k, statDir (mkdir_p fs p) (p.take k))
    ∧ (ancestorClosed fs →
        collectMissing fs p = (pathChain p).filter (fun q => decide (¬ statDir fs q))) := by
  have h1 := statDir_mkdir_p p.length p fs (le_refl _)
  refine ⟨h1, collectMissing_of_stat _ _ h1, mkdir_p_of_stat _ _ h1, ?_, ?_⟩
  · intro hc k
    exact statDir_take_of_closed p.length p (mkdir_p fs p) (le_refl _)
      (ancestorClosed_mkdir_p fs p hc) h1 k
  · intro hc
    exact collectMissing_filter p.length p fs (le_refl _) hc

/-- C7 witness: the chain and walk properties at a concrete filesystem
holding only one directory. -/
theorem C7_mkdir_p_idempotent_full_chain_witness :
    ancestorClosed { dirs := [["a"]], files := [] }
    ∧ statDir (mkdir_p { dirs := [["a"]], files := [] } ["a", "b", "c"]) (["a", "b", "c"].take 2)
    ∧ collectMissing { dirs := [["a"]], files := [] } ["a", "b", "c"]
      = (pathChain ["a", "b", "c"]).filter
          (fun q => decide (¬ statDir { dirs := [["a"]], files := [] } q))
    ∧ mkdir_p (mkdir_p { dirs := [["a"]], files := [] } ["a", "b", "c"]) ["a", "b", "c"]
      = mkdir_p { dirs := [["a"]], files := [] } ["a", "b", "c"] :=
  ⟨by decide,
   (C7_mkdir_p_idempotent_full_chain { dirs := [["a"]], files := [] }
      ["a", "b", "c"]).2.2.2.1 (by decide) 2,
   (C7_mkdir_p_idempotent_full_chain { dirs := [["a"]], files := [] }
      ["a", "b", "c"]).2.2.2.2 (by decide),
   (C7_mkdir_p_idempotent_full_chain { dirs := [["a"]], files := [] }
      ["a", "b", "c"]).2.2.1⟩

/-- One component statement of the deploy loop: the flag is conjoined
with the outcome, one error is appended exactly on failure, and the
filesystem advances to the outcome state. -/
theorem deployComponentStep_spec (env : Env) (cfg : Config) (n : String) (c : Cluster)
    (dryRun : Bool) (acc : DAcc) (comp : String) :
    ((deployComponentStep env cfg n c dryRun acc comp).success
      = (acc.success && (deploy_component env cfg n c comp dryRun acc.fs).1))
    ∧ ((deployComponentStep env cfg n c dryRun acc comp).errors.length
      = acc.errors.length
        + (if (deploy_component env cfg n c comp dryRun acc.fs).1 then 0 else 1))
    ∧ ((deployComponentStep env cfg n c dryRun acc comp).fs
      = (deploy_component env cfg n c comp dryRun acc.fs).2.1) := by
  unfold deployComponentStep
  cases hb : (deploy_component env cfg n c comp dryRun acc.fs).1 <;> simp [hb]

/-- The component loop of one cluster against the spec-side outcome
list: conjunction of outcomes, one error per failed outcome, same
final state. -/
theorem components_fold_spec (env : Env) (cfg : Config) (n : String) (c : Cluster)
    (dryRun : Bool) :
    ∀ (comps : List String) (acc : DAcc),
      ((comps.foldl (deployComponentStep env cfg n c dryRun) acc).success
        = (acc.success && (componentOutcomes env cfg n c dryRun comps acc.fs).1.all id))
      ∧ ((comps.foldl (deployComponentStep env cfg n c dryRun) acc).errors.length
        = acc.errors.length
          + (componentOutcomes env cfg n c dryRun comps acc.fs).1.count false)
      ∧ ((comps.foldl (deployComponentStep env cfg n c dryRun) acc).fs
        = (componentOutcomes env cfg n c dryRun comps acc.fs).2)
  | [], acc => by
    simp [componentOutcomes]
  | comp :: rest, acc => by
    obtain ⟨hs, he, hf⟩ := deployComponentStep_spec env cfg n c dryRun acc comp
    obtain ⟨ihs, ihe, ihf⟩ := components_fold_spec env cfg n c dryRun rest
      (deployComponentStep env cfg n c dryRun acc comp)
    rw [List.foldl_cons]
    refine ⟨?_, ?_, ?_⟩
    · rw [ihs, hs, hf]
      simp only [componentOutcomes, List.all_cons, id_eq]
      rw [Bool.and_assoc]
    · rw [ihe, he, hf]
      simp only [componentOutcomes, List.count_cons]
      cases hb : (deploy_component env cfg n c comp dryRun acc.fs).1 <;> simp <;> omega
    · rw [ihf, hf]
      simp only [componentOutcomes]

/-- The cluster statement advances the filesystem exactly as the
spec-side outcome list does. -/
theorem deployCluster_fs (env : Env) (cfg : Config) (comps : List String)
    (profile : String) (dryRun dc cn : Bool) (acc : DAcc) (n : String) :
    (deployCluster env cfg comps profile dryRun dc cn acc n).fs
      = (clusterOutcomes env cfg comps profile dryRun dc cn n acc.fs).2 := by
  unfold deployCluster clusterOutcomes
  cases hl : lookupStr cfg.clusters n with
  | none => simp
  | some c =>
    cases cn with
    | false =>
      have h2 := (components_fold_spec env cfg n c dryRun comps acc).2.2
      cases dc with
      | false => simpa using h2
      | true =>
        cases hb3 : (deploy_configs env cfg n c profile dryRun
            ((comps.foldl (deployComponentStep env cfg n c dryRun) acc).fs)).1 <;>
          simp [hb3, h2] <;> rw [← h2] <;> simp [hb3]
    | true =>
      rcases hr1 : configure_server_names env n c dryRun acc.fs with ⟨b1, fs1, tr1⟩
      cases b1 with
      | false =>
        have h2 := (components_fold_spec env cfg n c dryRun comps { acc with success := false, errors := acc.errors ++ [n ++ ": Failed to configure server names"], fs := fs1, trace := acc.trace ++ tr1 }).2.2
        cases dc with
        | false => simpa [hr1] using h2
        | true =>
          simp only [hr1] at h2 ⊢
          cases hb3 : (deploy_configs env cfg n c profile dryRun
              ((comps.foldl (deployComponentStep env cfg n c dryRun) { acc with success := false, errors := acc.errors ++ [n ++ ": Failed to configure server names"], fs := fs1, trace := acc.trace ++ tr1 }).fs)).1 <;>
            simp [hb3, h2] <;> rw [← h2] <;> simp [hb3]
      | true =>
        have h2 := (components_fold_spec env cfg n c dryRun comps { acc with fs := fs1, trace := acc.trace ++ tr1 }).2.2
        cases dc with
        | false => simpa [hr1] using h2
        | true =>
          simp only [hr1] at h2 ⊢
          cases hb3 : (deploy_configs env cfg n c profile dryRun
              ((comps.foldl (deployComponentStep env cfg n c dryRun) { acc with fs := fs1, trace := acc.trace ++ tr1 }).fs)).1 <;>
            simp [hb3, h2] <;> rw [← h2] <;> simp [hb3]

/-- The cluster statement conjoins the overall flag with every outcome
of the spec-side outcome list of that cluster. -/
theorem deployCluster_success (env : Env) (cfg : Config) (comps : List String)
    (profile : String) (dryRun dc cn : Bool) (acc : DAcc) (n : String) :
    (deployCluster env cfg comps profile dryRun dc cn acc n).success
      = (acc.success
          && (clusterOutcomes env cfg comps profile dryRun dc cn n acc.fs).1.all id) := by
  unfold deployCluster clusterOutcomes
  cases hl : lookupStr cfg.clusters n with
  | none => simp
  | some c =>
    cases cn with
    | false =>
      obtain ⟨h1, hE, h2⟩ := components_fold_spec env cfg n c dryRun comps acc
      cases dc with
      | false => simpa using h1
      | true =>
        cases hb3 : (deploy_configs env cfg n c profile dryRun
            ((comps.foldl (deployComponentStep env cfg n c dryRun) acc).fs)).1 <;>
          simp [hb3, h1, h2, Bool.and_assoc] <;> rw [← h2] <;>
          simp [hb3, h1, Bool.and_assoc]
    | true =>
      rcases hr1 : configure_server_names env n c dryRun acc.fs with ⟨b1, fs1, tr1⟩
      cases b1 with
      | false =>
        obtain ⟨h1, hE, h2⟩ := components_fold_spec env cfg n c dryRun comps { acc with success := false, errors := acc.errors ++ [n ++ ": Failed to configure server names"], fs := fs1, trace := acc.trace ++ tr1 }
        cases dc with
        | false => simpa [hr1] using h1
        | true =>
          simp only [hr1] at h1 h2 ⊢
          cases hb3 : (deploy_configs env cfg n c profile dryRun
              ((comps.foldl (deployComponentStep env cfg n c dryRun) { acc with success := false, errors := acc.errors ++ [n ++ ": Failed to configure server names"], fs := fs1, trace := acc.trace ++ tr1 }).fs)).1 <;>
            simp [hb3, h1, h2, Bool.and_assoc] <;> rw [← h2] <;>
            simp [hb3, h1, Bool.and_assoc]
      | true =>
        obtain ⟨h1, hE, h2⟩ := components_fold_spec env cfg n c dryRun comps { acc with fs := fs1, trace := acc.trace ++ tr1 }
        cases dc with
        | false => simpa [hr1] using h1
        | true =>
          simp only [hr1] at h1 h2 ⊢
          cases hb3 : (deploy_configs env cfg n c profile dryRun
              ((comps.foldl (deployComponentStep env cfg n c dryRun) { acc with fs := fs1, trace := acc.trace ++ tr1 }).fs)).1 <;>
            simp [hb3, h1, h2, Bool.and_assoc] <;> rw [← h2] <;>
            simp [hb3, h1, Bool.and_assoc]

/-- The cluster statement appends exactly one error per failed outcome
of the spec-side outcome list of that cluster. -/
theorem deployCluster_errlen (env : Env) (cfg : Config) (comps : List String)
    (profile : String) (dryRun dc cn : Bool) (acc : DAcc) (n : String) :
    (deployCluster env cfg comps profile dryRun dc cn acc n).errors.length
      = acc.errors.length
        + (clusterOutcomes env cfg comps profile dryRun dc cn n acc.fs).1.count false := by
  unfold deployCluster clusterOutcomes
  cases hl : lookupStr cfg.clusters n with
  | none => simp
  | some c =>
    cases cn with
    | false =>
      obtain ⟨h1, hE, h2⟩ := components_fold_spec env cfg n c dryRun comps acc
      cases dc with
      | false => simpa using hE
      | true =>
        cases hb3 : (deploy_configs env cfg n c profile dryRun
            ((comps.foldl (deployComponentStep env cfg n c dryRun) acc).fs)).1 <;>
          simp [hb3, hE, h2, List.count_append] <;> rw [← h2] <;>
          simp [hb3, hE, List.count_append] <;> omega
    | true =>
      rcases hr1 : configure_server_names env n c dryRun acc.fs with ⟨b1, fs1, tr1⟩
      cases b1 with
      | false =>
        obtain ⟨h1, hE, h2⟩ := components_fold_spec env cfg n c dryRun comps { acc with success := false, errors := acc.errors ++ [n ++ ": Failed to configure server names"], fs := fs1, trace := acc.trace ++ tr1 }
        cases dc with
        | false =>
          simp only [hr1] at hE ⊢
          simp [hE]
          omega
        | true =>
          simp only [hr1] at hE h2 ⊢
          cases hb3 : (deploy_configs env cfg n c profile dryRun
              ((comps.foldl (deployComponentStep env cfg n c dryRun) { acc with success := false, errors := acc.errors ++ [n ++ ": Failed to configure server names"], fs := fs1, trace := acc.trace ++ tr1 }).fs)).1 <;>
            simp [hb3, hE, h2, List.count_append] <;> rw [← h2] <;>
            simp [hb3, hE, List.count_append] <;> omega
      | true =>
        obtain ⟨h1, hE, h2⟩ := components_fold_spec env cfg n c dryRun comps { acc with fs := fs1, trace := acc.trace ++ tr1 }
        cases dc with
        | false =>
          simp only [hr1] at hE ⊢
          simp [hE]
        | true =>
          simp only [hr1] at hE h2 ⊢
          cases hb3 : (deploy_configs env cfg n c profile dryRun
              ((comps.foldl (deployComponentStep env cfg n c dryRun) { acc with fs := fs1, trace := acc.trace ++ tr1 }).fs)).1 <;>
            simp [hb3, hE, h2, List.count_append] <;> rw [← h2] <;>
            simp [hb3, hE, List.count_append] <;> omega

/-- The cluster loop of deploy against the whole-run spec-side outcome
list: conjunction of outcomes, one error per failed outcome, same
final state. -/
theorem deploy_fold_spec (env : Env) (cfg : Config) (comps : List String)
    (profile : String) (dryRun dc cn : Bool) :
    ∀ (clusters : List String) (acc : DAcc),
      ((clusters.foldl (deployCluster env cfg comps profile dryRun dc cn) acc).success
        = (acc.success
            && (deployOutcomes env cfg comps profile dryRun dc cn clusters acc.fs).1.all id))
      ∧ ((clusters.foldl (deployCluster env cfg comps profile dryRun dc cn) acc).errors.length
        = acc.errors.length
          + (deployOutcomes env cfg comps profile dryRun dc cn clusters acc.fs).1.count false)
      ∧ ((clusters.foldl (deployCluster env cfg comps profile dryRun dc cn) acc).fs
        = (deployOutcomes env cfg comps profile dryRun dc cn clusters acc.fs).2)
  | [], acc => by simp [deployOutcomes]
  | nm :: rest, acc => by
    obtain ⟨ihs, ihe, ihf⟩ := deploy_fold_spec env cfg comps profile dryRun dc cn rest
      (deployCluster env cfg comps profile dryRun dc cn acc nm)
    rw [List.foldl_cons]
    have hs := deployCluster_success env cfg comps profile dryRun dc cn acc nm
    have he := deployCluster_errlen env cfg comps profile dryRun dc cn acc nm
    have hf := deployCluster_fs env cfg comps profile dryRun dc cn acc nm
    refine ⟨?_, ?_, ?_⟩
    · rw [ihs, hs, hf]
      simp only [deployOutcomes, List.all_append]
      rw [Bool.and_assoc]
    · rw [ihe, he, hf]
      simp only [deployOutcomes, List.count_append]
      omega
    · rw [ihf, hf]
      simp only [deployOutcomes]

/-- Boolean conjunction of a list holds exactly when no false occurs. -/
theorem all_id_iff_count (l : List Bool) : (l.all id = true) ↔ (l.count false = 0) := by
  induction l with
  | nil => simp
  | cons b rest ih => cases b <;> simp [List.count_cons, ih]

/-- C2: the overall result of deploy is the logical AND of every
per-cluster, per-component, per-name-configuration and per-config
deployment outcome; each failed outcome appends exactly one error and
none is appended on success, so the run reports failure exactly when
the accumulated error list is non-empty. -/
theorem C2_aggregate_and_iff_errors (env : Env) (cfg : Config)
    (clusters comps : List String) (profile : String) (dryRun dc cn nd : Bool)
    (fs : RemoteFS) :
    ((deploy env cfg clusters comps profile dryRun dc cn nd fs).success
      = (deployOutcomes env cfg comps profile dryRun dc cn clusters fs).1.all id)
    ∧ ((deploy env cfg clusters comps profile dryRun dc cn nd fs).errors.length
      = (deployOutcomes env cfg comps profile dryRun dc cn clusters fs).1.count false)
    ∧ ((deploy env cfg clusters comps profile dryRun dc cn nd fs).success = true
        ↔ (deploy env cfg clusters comps profile dryRun dc cn nd fs).errors = []) := by
  obtain ⟨hs, he, hf⟩ := deploy_fold_spec env cfg comps profile dryRun dc cn clusters
    { success := true, errors := [], fs := fs, trace := [] }
  have hsd : (deploy env cfg clusters comps profile dryRun dc cn nd fs).success
      = (clusters.foldl (deployCluster env cfg comps profile dryRun dc cn)
          { success := true, errors := [], fs := fs, trace := [] }).success := by
    unfold deploy
    split <;> rfl
  have hed : (deploy env cfg clusters comps profile dryRun dc cn nd fs).errors
      = (clusters.foldl (deployCluster env cfg comps profile dryRun dc cn)
          { success := true, errors := [], fs := fs, trace := [] }).errors := by
    unfold deploy
    split <;> rfl
  refine ⟨?_, ?_, ?_⟩
  · rw [hsd, hs]
    simp
  · rw [hed, he]
    simp
  · rw [hsd, hs]
    simp only [Bool.true_and]
    rw [all_id_iff_count]
    rw [← List.length_eq_zero, hed, he]
    simp
